import Mathlib

/-
Verification development for the utm-airspace-generator repository.

The Python sources are shallowly embedded as Lean definitions:
pure functions become Lean functions, pandas/GeoPandas column operations
become list operations, machine floats become exact rationals, and the
opaque geometric primitives of shapely/pyproj (reprojection, buffering,
segment/polygon intersection) become either symbolic geometry constructors
or oracle parameters, so that every control-flow and bookkeeping decision
of the source is represented exactly.
-/

namespace UTMAirspace

/-! ## Embedding of src/obstacle_loader.py -/

/-- Python regex class backslash-s over the ASCII whitespace characters that can
occur in the input lines (space, tab, newline, vertical tab, form feed,
carriage return). -/
def isWsChar (c : Char) : Bool :=
  c = ' ' || c = '\t' || c = '\n' || c = '\x0b' || c = '\x0c' || c = '\r'

/-- Python regex class backslash-d restricted to ASCII digits (the DOF data is
ASCII). -/
def isDigitChar (c : Char) : Bool :=
  '0' ≤ c && c ≤ '9'

/-- Numeric value of a digit string, as produced by Python `int` on a group. -/
def digitsToNat (ds : List Char) : Nat :=
  ds.foldl (fun n c => 10 * n + (c.toNat - '0'.toNat)) 0

/-- One step of `(non-ws)+` followed by `(ws)+`: the greedy token of the
pattern `(?P<g>\S+)\s+`.  Returns the token and the rest after the whitespace
run, or `none` when either part is empty. -/
def takeTokWs (cs : List Char) : Option (List Char × List Char) :=
  let tok := cs.takeWhile (fun c => !isWsChar c)
  if tok.isEmpty then none
  else
    let rest := cs.drop tok.length
    match rest with
    | [] => none
    | c :: rest' => if isWsChar c then some (tok, rest'.dropWhile isWsChar) else none

/-- The mandatory whitespace run `\s+` (greedy; in every context of LINE_RE the
next pattern element rejects whitespace, so the greedy run never backtracks). -/
def skipWs1 : List Char → Option (List Char)
  | [] => none
  | c :: cs => if isWsChar c then some (cs.dropWhile isWsChar) else none

/-- Exactly `n` ASCII digits. -/
def takeDigitsExact : Nat → List Char → Option (List Char × List Char)
  | 0, cs => some ([], cs)
  | _ + 1, [] => none
  | n + 1, c :: cs =>
    if isDigitChar c then
      match takeDigitsExact n cs with
      | some (d, r) => some (c :: d, r)
      | none => none
    else none

/-- Pattern `\d{2}\s+`. -/
def digits2Ws (cs : List Char) : Option (Nat × List Char) :=
  match takeDigitsExact 2 cs with
  | none => none
  | some (d, r) =>
    match skipWs1 r with
    | none => none
    | some r2 => some (digitsToNat d, r2)

/-- Pattern `\d{2,3}\s+`: greedy, three digits tried before two, matching
Python backtracking. -/
def deg23 (cs : List Char) : Option (Nat × List Char) :=
  match takeDigitsExact 3 cs with
  | some (d, r) =>
    match skipWs1 r with
    | some r2 => some (digitsToNat d, r2)
    | none =>
      match takeDigitsExact 2 cs with
      | some (d2, r2) =>
        match skipWs1 r2 with
        | some r3 => some (digitsToNat d2, r3)
        | none => none
      | none => none
  | none =>
    match takeDigitsExact 2 cs with
    | some (d, r) =>
      match skipWs1 r with
      | some r2 => some (digitsToNat d, r2)
      | none => none
    | none => none

/-- Pattern `\d{2}\.\d{2}` + a hemisphere letter drawn from `hems` + `\s+`.
The seconds value `ab.cd` is returned as the exact rational `ab + cd/100`,
the value Python `float` gives on these two-decimal strings. -/
def secHem (hems : List Char) (cs : List Char) : Option (ℚ × Char × List Char) :=
  match takeDigitsExact 2 cs with
  | none => none
  | some (a, r1) =>
    match r1 with
    | '.' :: r2 =>
      match takeDigitsExact 2 r2 with
      | none => none
      | some (b, r3) =>
        match r3 with
        | h :: r4 =>
          if hems.contains h then
            match skipWs1 r4 with
            | none => none
            | some r5 => some ((digitsToNat a : ℚ) + (digitsToNat b : ℚ) / 100, h, r5)
          else none
        | [] => none
    | _ => none

/-- Tail pattern `(?P<agl_cat>\d)\s+(?P<agl_ht>\d{5})\s+(?P<amsl_ht>\d{5})`.
`re.match` is not anchored at the end, so anything may follow. -/
def matchTail3 (cs : List Char) : Option (Nat × Nat × Nat) :=
  match takeDigitsExact 1 cs with
  | none => none
  | some (c1, r1) =>
    match skipWs1 r1 with
    | none => none
    | some r2 =>
      match takeDigitsExact 5 r2 with
      | none => none
      | some (a, r3) =>
        match skipWs1 r3 with
        | none => none
        | some r4 =>
          match takeDigitsExact 5 r4 with
          | none => none
          | some (b, _) => some (digitsToNat c1, digitsToNat a, digitsToNat b)

/-- Lazy group `(?P<g>.+?)\s+` followed by a continuation pattern `k`:
the group grows one character at a time (never across a newline, as Python
`.` excludes it) and the first extension after which a whitespace run and a
successful `k` follow wins — Python's leftmost-shortest lazy semantics.  In
LINE_RE every continuation starts with a digit, so the greedy whitespace run
never has to backtrack. -/
def lazyUpto {α : Type} (k : List Char → Option α) :
    List Char → List Char → Option (List Char × α)
  | _, [] => none
  | acc, c :: rest =>
    if c = '\n' then none
    else
      match skipWs1 rest with
      | some r2 =>
        match k r2 with
        | some v => some (acc ++ [c], v)
        | none => lazyUpto k (acc ++ [c]) rest
      | none => lazyUpto k (acc ++ [c]) rest

/-- Everything of LINE_RE after the city group: latitude, longitude,
obstacle type (lazy), AGL category, AGL height, AMSL height. -/
structure LatLonTail where
  lat_deg : Nat
  lat_min : Nat
  lat_sec : ℚ
  lat_hem : Char
  lon_deg : Nat
  lon_min : Nat
  lon_sec : ℚ
  lon_hem : Char
  obstacle_type : List Char
  agl_cat : Nat
  agl_ht : Nat
  amsl_ht : Nat
deriving DecidableEq, Repr

/-- Match of LINE_RE from the latitude group on. -/
def matchAfterCity (cs : List Char) : Option LatLonTail :=
  match deg23 cs with
  | none => none
  | some (latd, r1) =>
    match digits2Ws r1 with
    | none => none
    | some (latm, r2) =>
      match secHem ['N', 'S'] r2 with
      | none => none
      | some (lsec, lhem, r3) =>
        match deg23 r3 with
        | none => none
        | some (lond, r4) =>
          match digits2Ws r4 with
          | none => none
          | some (lonm, r5) =>
            match secHem ['E', 'W'] r5 with
            | none => none
            | some (osec, ohem, r6) =>
              match lazyUpto matchTail3 [] r6 with
              | none => none
              | some (otype, (cat, agl, amsl)) =>
                some {
                  lat_deg := latd, lat_min := latm, lat_sec := lsec, lat_hem := lhem,
                  lon_deg := lond, lon_min := lonm, lon_sec := osec, lon_hem := ohem,
                  obstacle_type := otype, agl_cat := cat, agl_ht := agl, amsl_ht := amsl }

/-- The named groups of LINE_RE in src/obstacle_loader.py. -/
structure DofGroups where
  oas : String
  v : String
  co : String
  st : String
  city : String
  tail : LatLonTail
deriving DecidableEq, Repr

/-- `LINE_RE.match(line)` of src/obstacle_loader.py: anchored at the start of
the line; four greedy whitespace-separated tokens (OAS number, verification
flag, country, state), the lazy city group, then latitude, longitude,
obstacle type and the three height fields. -/
def matchLine (line : String) : Option DofGroups :=
  let cs := line.data
  match takeTokWs cs with
  | none => none
  | some (oas, r1) =>
    match takeTokWs r1 with
    | none => none
    | some (v, r2) =>
      match takeTokWs r2 with
      | none => none
      | some (co, r3) =>
        match takeTokWs r3 with
        | none => none
        | some (st, r4) =>
          match lazyUpto matchAfterCity [] r4 with
          | none => none
          | some (city, t) =>
            some { oas := String.mk oas, v := String.mk v, co := String.mk co,
                   st := String.mk st, city := String.mk city, tail := t }

/-- `dms_to_decimal` of src/obstacle_loader.py, over exact rationals:
`deg + minute/60 + sec/3600`, negated when the hemisphere string is
"S" or "W". -/
def dms_to_decimal (deg minute sec : ℚ) (hemisphere : String) : ℚ :=
  let val := deg + minute / 60 + sec / 3600
  if hemisphere = "S" ∨ hemisphere = "W" then -val else val

/-- Python `str.strip()`: surrounding whitespace removed. -/
def pyStrip (s : String) : String :=
  String.mk (((s.data.dropWhile isWsChar).reverse.dropWhile isWsChar).reverse)

/-- One parsed obstacle row, as assembled by the loop body of `parse_dof`. -/
structure DofRecord where
  oas : String
  state : String
  city : String
  obstacle_type : String
  agl_ft : Nat
  amsl_ft : Nat
  lat : ℚ
  lon : ℚ
deriving DecidableEq, Repr

/-- One iteration of the `parse_dof` loop on a line (already stripped of its
trailing newline): blank lines are skipped, non-matching lines are skipped,
a match is converted to a `DofRecord` with DMS coordinates made decimal. -/
def parseLine (line : String) : Option DofRecord :=
  if line.data.all isWsChar then none
  else
    match matchLine line with
    | none => none
    | some g =>
      some {
        oas := g.oas,
        state := g.st,
        city := pyStrip g.city,
        obstacle_type := pyStrip (String.mk g.tail.obstacle_type),
        agl_ft := g.tail.agl_ht,
        amsl_ft := g.tail.amsl_ht,
        lat := dms_to_decimal g.tail.lat_deg g.tail.lat_min g.tail.lat_sec
          (String.mk [g.tail.lat_hem]),
        lon := dms_to_decimal g.tail.lon_deg g.tail.lon_min g.tail.lon_sec
          (String.mk [g.tail.lon_hem]) }

/-- Result of `parse_dof`: either the accumulated rows, or the zero-records
failure (the spec's `EmptyDatasetError`; the code raises `RuntimeError` with
this message). -/
inductive ParseOutcome where
  | ok (records : List DofRecord)
  | emptyDataset (msg : String)
deriving DecidableEq, Repr

/-- The accumulation loop of `parse_dof` over the lines that survive the
header skip. -/
def parseDofLoop : List String → List DofRecord
  | [] => []
  | l :: ls =>
    match parseLine l with
    | none => parseDofLoop ls
    | some r => r :: parseDofLoop ls

/-- `parse_dof` of src/obstacle_loader.py on the file's lines (each without
its trailing newline): the first four lines are dropped unconditionally as
header/separator lines, the rest are matched line by line, and zero
accumulated rows is a fatal error. -/
def parse_dof (fileLines : List String) : ParseOutcome :=
  let rows := parseDofLoop (fileLines.drop 4)
  if rows.isEmpty then
    ParseOutcome.emptyDataset "Parsed 0 obstacles – regex probably needs adjustment."
  else ParseOutcome.ok rows

/-! ## Symbolic geometry

shapely/pyproj geometric values are represented symbolically: a constructor
records each geometric operation the Python code performs (point creation,
box creation, reprojection into an EPSG code, metric buffering), so that
theorems can state exactly which operations were applied and with which
parameters, without re-implementing computational geometry. -/

inductive Geom where
  | point (lon lat : ℚ)
  | box (minx miny maxx maxy : ℚ)
  | reproject (epsg : ℤ) (g : Geom)
  | buffer (radius_m : ℚ) (g : Geom)
deriving DecidableEq, Repr

/-! ## Embedding of src/obstacle_preprocess.py -/

/-- `MIN_AGL_FT` of src/obstacle_preprocess.py: 200 ft plus a ~10 m margin. -/
def MIN_AGL_FT : Nat := 218

/-- `BUFFER_M` of src/obstacle_preprocess.py: 30 m lateral buffer. -/
def BUFFER_M : ℚ := 30

/-- An output feature of obstacle preprocessing: the originating record's
attributes with the buffered geometry. -/
structure BufferedObstacle where
  oas : String
  agl_ft : Nat
  geom : Geom
deriving DecidableEq, Repr

/-- The filter-and-buffer portion of `main` in src/obstacle_preprocess.py
(the spec's `buffer_obstacles` contract), applied to the obstacle records in
hand (in the script these are the AOI-clipped rows): keep rows with
`agl_ft >= MIN_AGL_FT`, reproject each point into EPSG:3857 (one shared
planar CRS for every obstacle), buffer it by `BUFFER_M` meters, and
reproject back to EPSG:4326. -/
def buffer_obstacles (records : List DofRecord) : List BufferedObstacle :=
  let filtered := records.filter (fun r => MIN_AGL_FT ≤ r.agl_ft)
  filtered.map (fun r =>
    { oas := r.oas, agl_ft := r.agl_ft,
      geom := Geom.reproject 4326 (Geom.buffer BUFFER_M
        (Geom.reproject 3857 (Geom.point r.lon r.lat))) })

/-! ## Embedding of grid_generator.py -/

/-- `_utm_epsg_for_latlon` of grid_generator.py: zone from the longitude,
NH/SH EPSG family from the latitude sign. -/
def utm_epsg_for_latlon (lat lon : ℚ) : ℤ :=
  let zone := ⌊(lon + 180) / 6⌋ + 1
  if 0 ≤ lat then 32600 + zone else 32700 + zone

/-- One grid cell row of the GeoDataFrame: `cell_id` column plus geometry. -/
structure GridCell (α : Type) where
  cell_id : Nat
  geom : α
deriving DecidableEq, Repr

instance {α : Type} [Inhabited α] : Inhabited (GridCell α) := ⟨⟨0, default⟩⟩

/-- The coordinates visited by `while v < hi: ... v += step` starting at
`lo`, for a positive `step`: `lo + i*step` for every `i` with
`lo + i*step < hi`. -/
def tileCoords (lo hi step : ℚ) : List ℚ :=
  (List.range (Int.toNat ⌈(hi - lo) / step⌉)).map (fun i => lo + i * step)

/-- Result of a grid build: the cells, or the fatal `InvalidBoundsError`
rejection (`ValueError` in the code). -/
inductive GridOutcome where
  | ok (cells : List (GridCell Geom))
  | invalidBounds (msg : String)
deriving DecidableEq, Repr

/-- `build_grid_from_bounds` of grid_generator.py.  The pyproj reprojection
of the bounding box into the chosen UTM CRS is an oracle parameter
`projBounds epsg (west, south, east, north) = (minx, miny, maxx, maxy)`.
Validation happens first; then the UTM CRS is chosen from the bbox centroid,
the reprojected bbox is tiled row-major with square cells of `cell_m`
meters, the last cell of a row/column is clipped to the bbox edge,
degenerate cells are dropped, `cell_id` runs from 1 in scan order, and the
cells are reprojected back to EPSG:4326. -/
def build_grid_from_bounds
    (projBounds : ℤ → ℚ × ℚ × ℚ × ℚ → ℚ × ℚ × ℚ × ℚ)
    (north south west east cell_m : ℚ) : GridOutcome :=
  if ¬ (south < north ∧ west < east) then
    GridOutcome.invalidBounds "Invalid bounds: ensure south < north and west < east."
  else if cell_m ≤ 0 then
    GridOutcome.invalidBounds "Cell size (meters) must be > 0."
  else
    let centroidLon := (west + east) / 2
    let centroidLat := (south + north) / 2
    let epsg := utm_epsg_for_latlon centroidLat centroidLon
    let (minx, miny, maxx, maxy) := projBounds epsg (west, south, east, north)
    let boxes := (tileCoords miny maxy cell_m).flatMap (fun y =>
      (tileCoords minx maxx cell_m).filterMap (fun x =>
        let x2 := min (x + cell_m) maxx
        let y2 := min (y + cell_m) maxy
        if 0 < x2 - x ∧ 0 < y2 - y then some (Geom.box x y x2 y2) else none))
    GridOutcome.ok ((List.range boxes.length).zip boxes |>.map (fun p =>
      { cell_id := p.1 + 1, geom := Geom.reproject 4326 p.2 }))

/-- `clipped["cell_id"] = clipped.index + 1` after `reset_index`: fresh
sequential identifiers from `start`, former identifiers discarded. -/
def renumberFrom {α : Type} (start : Nat) : List (GridCell α) → List (GridCell α)
  | [] => []
  | c :: cs => { cell_id := start, geom := c.geom } :: renumberFrom (start + 1) cs

/-- `clip_to_boundary` of grid_generator.py.  `gpd.overlay(grid, boundary,
how="intersection")` is embedded with an oracle `inter` giving the exact
polygon intersection of a cell geometry with one boundary feature (`none`
when empty): every (cell, boundary-feature) pair with a non-empty
intersection yields a row, in grid order; then the surviving rows are
renumbered 1..N in output order. -/
def clip_to_boundary {α β : Type} (inter : α → β → Option α)
    (grid : List (GridCell α)) (boundary : List β) : List (GridCell α) :=
  let clipped := grid.flatMap (fun c =>
    boundary.filterMap (fun b => (inter c.geom b).map (fun g => { c with geom := g })))
  renumberFrom 1 clipped

/-! ## Embedding of src/poi_generator.py -/

/-- A simple deterministic linear congruential step.  This drives the model
of Python `random.Random`: the claims depend only on the sampler being a
fixed deterministic function of the seed and its arguments, not on the
Mersenne Twister stream itself, so the untwisted generator stands in for
it. -/
def lcg (s : Nat) : Nat := (s * 1103515245 + 12345) % 2 ^ 31

/-- Selection loop of the sampler model: draw `k` distinct positions from
the remaining pool. -/
def pySampleAux : Nat → Nat → List Nat → List Nat
  | _, 0, _ => []
  | s, k + 1, avail =>
    if avail.isEmpty then []
    else
      let i := s % avail.length
      avail.getD i 0 :: pySampleAux (lcg s) k (avail.eraseIdx i)

/-- Model of `random.Random(seed).sample(range(n), k)`: a fixed
deterministic function of `(seed, n, k)` returning `k` distinct indices
below `n` (for `k ≤ n`); the generator seeded from `seed` alone, sampling
without replacement. -/
def pySample (seed n k : Nat) : List Nat :=
  pySampleAux (lcg seed) k (List.range n)

/-- A row of the grid GeoJSON consumed by the POI generator: `cell_id`,
centroid coordinates, geometry. -/
structure GridRow (γ : Type) where
  cell_id : Nat
  centroid_lat : ℚ
  centroid_lon : ℚ
  geom : γ
deriving DecidableEq, Repr

instance {γ : Type} [Inhabited γ] : Inhabited (GridRow γ) := ⟨⟨0, 0, 0, default⟩⟩

/-- A produced POI row (CSV columns plus the kept geometry). -/
structure PoiRow (γ : Type) where
  poi_id : String
  poi_type : String
  poi_name : String
  cell_id : Nat
  centroid_lat : ℚ
  centroid_lon : ℚ
  geom : γ
deriving DecidableEq, Repr

/-- Zero-padded decimal rendering, as Python `f"{n:04d}"`-style formats. -/
def zeroPad (width n : Nat) : String :=
  let s := toString n
  String.mk (List.replicate (width - s.length) '0' ++ s.data)

/-- `.round(3)`: coordinates rounded to 3 decimal places (nearest-rational
rounding standing in for float banker's rounding). -/
def roundTo3 (x : ℚ) : ℚ := (round (x * 1000) : ℤ) / 1000

/-- Rows selected by `gdf.iloc[indices]`. -/
def ilocRows {γ : Type} [Inhabited γ] (gdf : List (GridRow γ)) (idxs : List Nat) :
    List (GridRow γ) :=
  idxs.map (fun i => gdf.getD i default)

/-- The role block construction of `create_pois`: selected rows get the
role as `poi_type` and names `role_1`, `role_2`, ... in selection order. -/
def roleBlock {γ : Type} (role : String) (rows : List (GridRow γ)) : List (PoiRow γ) :=
  (List.range rows.length).zip rows |>.map (fun p =>
    { poi_id := "", poi_type := role, poi_name := role ++ "_" ++ toString (p.1 + 1),
      cell_id := p.2.cell_id,
      centroid_lat := p.2.centroid_lat, centroid_lon := p.2.centroid_lon,
      geom := p.2.geom })

/-- `all_pois["poi_id"] = all_pois.index.map(lambda i: f"poi_{i:04d}")`:
identifiers assigned over the concatenated frame by row position. -/
def assignPoiIds {γ : Type} (start : Nat) : List (PoiRow γ) → List (PoiRow γ)
  | [] => []
  | r :: rs => { r with poi_id := "poi_" ++ zeroPad 4 start } :: assignPoiIds (start + 1) rs

/-- `create_pois` of src/poi_generator.py: three independently seeded
generators (seeds 42, 43, 44) sample hub, merchant and customer cells
without replacement within each role (capped at the number of cells), the
blocks are concatenated hubs-merchants-customers, `poi_id` is a zero-padded
index over the concatenation, and centroid coordinates are rounded to three
decimals. -/
def create_pois {γ : Type} [Inhabited γ] (gdf : List (GridRow γ))
    (n_hubs n_merchants n_customers : Nat) : List (PoiRow γ) :=
  let hub_indices := pySample 42 gdf.length (min n_hubs gdf.length)
  let hubs := roleBlock "hub" (ilocRows gdf hub_indices)
  let merchant_indices := pySample 43 gdf.length (min n_merchants gdf.length)
  let merchants := roleBlock "merchant" (ilocRows gdf merchant_indices)
  let customer_indices := pySample 44 gdf.length (min n_customers gdf.length)
  let customers := roleBlock "customer" (ilocRows gdf customer_indices)
  let all_pois := assignPoiIds 0 (hubs ++ merchants ++ customers)
  all_pois.map (fun r =>
    { r with centroid_lat := roundTo3 r.centroid_lat,
             centroid_lon := roundTo3 r.centroid_lon })

/-! ## Embedding of src/flight_generator.py -/

/-- The `POI` class of src/flight_generator.py (fields as read from the
CSV: identifiers are strings, coordinates floats). -/
structure FlightPoi where
  poi_id : String
  poi_type : String
  poi_name : String
  cell_id : String
  centroid_lat : ℚ
  centroid_lon : ℚ
deriving DecidableEq, Repr, Inhabited

/-- A straight-line route segment as built by
`LineString([(lon1, lat1), (lon2, lat2)])`: endpoint coordinates in
(lon, lat) order. -/
def Segment : Type := (ℚ × ℚ) × (ℚ × ℚ)

/-- One buffered obstacle feature as loaded from the preprocessed GeoJSON:
its `oas` identifier and its (abstract) buffer polygon. -/
structure ObstacleFeature (γ : Type) where
  oas : String
  geom : γ
deriving DecidableEq, Repr

/-- Boolean lexicographic order on character lists (code-point order), the
order Python string comparison uses. -/
def lexLe : List Char → List Char → Bool
  | [], _ => true
  | _ :: _, [] => false
  | a :: as, b :: bs => if a < b then true else if a = b then lexLe as bs else false

/-- Python's ascending string order, used by `sorted` on OAS identifiers. -/
def strLe (a b : String) : Prop := lexLe a.data b.data = true

instance : DecidableRel strLe := fun a b => by unfold strLe; infer_instance

/-- Python `sorted` on a set of strings: some ascending reordering; on the
deduplicated input the ascending reordering is unique, so insertion sort
gives exactly the list `sorted` returns. -/
def pySorted (l : List String) : List String := List.insertionSort strLe l

/-- `segment_conflicting_obstacles` of src/flight_generator.py, with the
shapely `intersects` predicate as an oracle parameter: empty obstacle set
short-circuits to no conflict, an all-false intersection mask
short-circuits likewise, and otherwise the `oas` values of the rows whose
buffer intersects the segment are returned (the fallback branch for a
missing `oas` column cannot arise here, every feature carrying one). -/
def segment_conflicting_obstacles {γ : Type} (intersects : γ → Segment → Bool)
    (lat1 lon1 lat2 lon2 : ℚ) (obstacles : List (ObstacleFeature γ)) : List String :=
  if obstacles.isEmpty then []
  else
    let line : Segment := ((lon1, lat1), (lon2, lat2))
    let mask := obstacles.map (fun ob => intersects ob.geom line)
    if mask.all (fun b => b = false) then []
    else (obstacles.filter (fun ob => intersects ob.geom line)).map (fun ob => ob.oas)

/-- `load_obstacle_buffers` of src/flight_generator.py: a missing obstacle
file (input `none`) produces only a printed warning and an empty
GeoDataFrame; an existing file contributes its features (the CRS fix-up does
not change the feature list). -/
def load_obstacle_buffers {γ : Type}
    (obstacleFile : Option (List (ObstacleFeature γ))) : List (ObstacleFeature γ) :=
  match obstacleFile with
  | none => []
  | some features => features

/-- `generate_flight_id` of src/flight_generator.py. -/
def generate_flight_id (index : Nat) : String := "FLIGHT_" ++ zeroPad 5 index

/-- One generated operational intent (the departure timestamp is modelled
as minutes since the epoch of the shared base time). -/
structure FlightIntent where
  flight_id : String
  origin_poi_id : String
  destination_poi_id : String
  recovery_poi_id : String
  origin_cell_id : String
  destination_cell_id : String
  recovery_cell_id : String
  scheduled_departure_min : Nat
  cruise_altitude_ft : Nat
  speed_mps : ℚ
  route_strategy : String
  status : String
  has_obstacle_conflict : Bool
  obstacle_conflict_legs : List String
  obstacle_conflict_oas : List String
  origin_poi : FlightPoi
  destination_poi : FlightPoi
  recovery_poi : FlightPoi
deriving DecidableEq, Repr, Inhabited

/-- The POI table as returned by `load_pois` (nonemptiness of the three
role lists is checked there). -/
structure PoiSets where
  merchants : List FlightPoi
  customers : List FlightPoi
  hubs : List FlightPoi
deriving Repr, Inhabited

/-- The loop body of `generate_operational_intents` for iteration `i`
(1-based): pick the merchant, customer and hub (`random.choice` modelled by
the per-flight index functions `mSel`, `cSel`, `hSel`), test the three legs
hub-merchant, merchant-customer, customer-hub, record the conflicting leg
names in that order, accumulate the union of the conflicting OAS ids, and
classify the flight. -/
def mkIntent {γ : Type} (intersects : γ → Segment → Bool)
    (obstacles : List (ObstacleFeature γ)) (pois : PoiSets)
    (mSel cSel hSel depOff : Nat → Nat) (base_time : Nat)
    (cruise_altitude_ft : Nat) (speed_mps : ℚ) (route_strategy : String)
    (i : Nat) : FlightIntent :=
  let merchant := pois.merchants.getD (mSel i) default
  let customer := pois.customers.getD (cSel i) default
  let hub := pois.hubs.getD (hSel i) default
  let ids1 := segment_conflicting_obstacles intersects
    hub.centroid_lat hub.centroid_lon merchant.centroid_lat merchant.centroid_lon obstacles
  let ids2 := segment_conflicting_obstacles intersects
    merchant.centroid_lat merchant.centroid_lon customer.centroid_lat customer.centroid_lon obstacles
  let ids3 := segment_conflicting_obstacles intersects
    customer.centroid_lat customer.centroid_lon hub.centroid_lat hub.centroid_lon obstacles
  let conflict_legs :=
    (if ids1.isEmpty then [] else ["hub_to_merchant"]) ++
    (if ids2.isEmpty then [] else ["merchant_to_customer"]) ++
    (if ids3.isEmpty then [] else ["customer_to_hub"])
  let conflict_obstacles := (ids1 ++ ids2 ++ ids3).dedup
  let has_conflict := !conflict_legs.isEmpty
  { flight_id := generate_flight_id i,
    origin_poi_id := merchant.poi_id,
    destination_poi_id := customer.poi_id,
    recovery_poi_id := hub.poi_id,
    origin_cell_id := merchant.cell_id,
    destination_cell_id := customer.cell_id,
    recovery_cell_id := hub.cell_id,
    scheduled_departure_min := base_time + depOff i,
    cruise_altitude_ft := cruise_altitude_ft,
    speed_mps := speed_mps,
    route_strategy := route_strategy,
    status := if has_conflict then "conflict_obstacle" else "planned",
    has_obstacle_conflict := has_conflict,
    obstacle_conflict_legs := conflict_legs,
    obstacle_conflict_oas := pySorted conflict_obstacles,
    origin_poi := merchant,
    destination_poi := customer,
    recovery_poi := hub }

/-- `for i in range(1, count + 1)` collecting one intent per iteration. -/
def intentLoop (mk : Nat → FlightIntent) : Nat → Nat → List FlightIntent
  | _, 0 => []
  | i, n + 1 => mk i :: intentLoop mk (i + 1) n

/-- `generate_operational_intents` of src/flight_generator.py: load the
obstacle buffers (empty fallback when the file is absent), then generate
`count` flights. -/
def generate_operational_intents {γ : Type} (intersects : γ → Segment → Bool)
    (obstacleFile : Option (List (ObstacleFeature γ))) (pois : PoiSets) (count : Nat)
    (mSel cSel hSel depOff : Nat → Nat) (base_time : Nat)
    (cruise_altitude_ft : Nat := 250) (speed_mps : ℚ := 25)
    (route_strategy : String := "straight_line") : List FlightIntent :=
  let obstacles := load_obstacle_buffers obstacleFile
  intentLoop
    (mkIntent intersects obstacles pois mSel cSel hSel depOff base_time
      cruise_altitude_ft speed_mps route_strategy)
    1 count

/-! ## Helper lemmas -/

theorem lexLe_total : ∀ as bs : List Char, lexLe as bs = true ∨ lexLe bs as = true
  | [], _ => Or.inl rfl
  | _ :: _, [] => Or.inr rfl
  | a :: as, b :: bs => by
    rcases lt_trichotomy a b with h | h | h
    · left; simp [lexLe, h]
    · subst h
      rcases lexLe_total as bs with ih | ih
      · left; simp [lexLe, ih]
      · right; simp [lexLe, ih]
    · right; simp [lexLe, h]

theorem lexLe_trans :
    ∀ as bs cs : List Char, lexLe as bs = true → lexLe bs cs = true → lexLe as cs = true
  | [], _, _, _, _ => rfl
  | _ :: _, [], _, h, _ => by simp [lexLe] at h
  | _ :: _, _ :: _, [], _, h2 => by simp [lexLe] at h2
  | a :: as, b :: bs, c :: cs, h1, h2 => by
    simp only [lexLe] at h1 h2 ⊢
    by_cases hab : a < b
    · by_cases hbc : b < c
      · simp [lt_trans hab hbc]
      · by_cases hbc' : b = c
        · simp [hbc' ▸ hab]
        · simp [hbc, hbc'] at h2
    · by_cases hab' : a = b
      · subst hab'
        by_cases hbc : a < c
        · simp [hbc]
        · by_cases hbc' : a = c
          · subst hbc'
            simp only [if_neg (lt_irrefl a), if_pos rfl] at h1 h2 ⊢
            exact lexLe_trans as bs cs h1 h2
          · simp [hbc, hbc'] at h2
      · simp [hab, hab'] at h1

instance : IsTotal String strLe :=
  ⟨fun a b => by unfold strLe; exact lexLe_total a.data b.data⟩

instance : IsTrans String strLe :=
  ⟨fun a b c => by unfold strLe; exact lexLe_trans a.data b.data c.data⟩

theorem pySorted_sorted (l : List String) : List.Sorted strLe (pySorted l) :=
  List.sorted_insertionSort strLe l

theorem mem_pySorted (l : List String) (x : String) : x ∈ pySorted l ↔ x ∈ l :=
  (List.perm_insertionSort strLe l).mem_iff

theorem pySorted_nodup (l : List String) (h : l.Nodup) : (pySorted l).Nodup :=
  (List.perm_insertionSort strLe l).nodup_iff.mpr h

theorem parseDofLoop_eq_filterMap (ls : List String) :
    parseDofLoop ls = ls.filterMap parseLine := by
  induction ls with
  | nil => rfl
  | cons l ls ih =>
    simp only [parseDofLoop, List.filterMap_cons]
    cases parseLine l <;> simp [ih]

/-- The error message of the zero-records failure in `parse_dof`. -/
def emptyDatasetMsg : String := "Parsed 0 obstacles – regex probably needs adjustment."

theorem parse_dof_eq (fileLines : List String) :
    parse_dof fileLines =
      (if (fileLines.drop 4).filterMap parseLine = [] then
        ParseOutcome.emptyDataset emptyDatasetMsg
      else ParseOutcome.ok ((fileLines.drop 4).filterMap parseLine)) := by
  unfold parse_dof emptyDatasetMsg
  rw [parseDofLoop_eq_filterMap]
  rcases h : (fileLines.drop 4).filterMap parseLine with _ | _ <;> simp [h]

/-- A well-formed DOF record line (the docstring example of
src/obstacle_loader.py completed with the three height fields). -/
def sampleDofLine : String :=
  "53-000685 0 US WA VANCOUVER 45 34 03.80N 122 24 51.58W T-L TWR 1 00250 00500"

/-! ## Claims -/

/-- C4, as stated, is false: a line that matches the token pattern but sits
among the first four lines of the file yields no record, and a file whose
only matching lines are in that header region triggers the zero-records
failure even though a line parses.  Here the single-line file consisting of
one well-formed record line parses to zero records and fails. -/
theorem C4_counterexample :
    (matchLine sampleDofLine).isSome = true ∧ (parseLine sampleDofLine).isSome = true ∧
      parse_dof [sampleDofLine] = ParseOutcome.emptyDataset emptyDatasetMsg := by
  refine ⟨by decide, by decide, by decide⟩

/-- C4 (amended): for every input obstacle dataset, `parse_dof` returns a
record for each line after the first four lines that matches the expected
token pattern (in file order), silently skips every other line after the
first four without raising an error, and fails with the zero-records error
if and only if zero lines after the first four parse successfully. -/
theorem C4_parse_skip_and_empty_failure (fileLines : List String) :
    (parse_dof fileLines = ParseOutcome.ok ((fileLines.drop 4).filterMap parseLine) ∨
      (parse_dof fileLines = ParseOutcome.emptyDataset emptyDatasetMsg ∧
        (fileLines.drop 4).filterMap parseLine = [])) ∧
    ((parse_dof fileLines = ParseOutcome.emptyDataset emptyDatasetMsg) ↔
      (fileLines.drop 4).filterMap parseLine = []) := by
  rw [parse_dof_eq fileLines]
  by_cases h : (fileLines.drop 4).filterMap parseLine = []
  · simp [h]
  · simp [h]

/-- C9: the parser unconditionally discards the first four lines before any
matching — the outcome is the same for any two four-line prefixes, well
formed or not, and the zero-records failure fires exactly when no line
beyond the first four parses; so a file whose only matching lines lie in
its first four lines fails with the zero-records error. -/
theorem C9_header_skip (pre1 pre2 post : List String)
    (h1 : pre1.length = 4) (h2 : pre2.length = 4) :
    parse_dof (pre1 ++ post) = parse_dof (pre2 ++ post) ∧
    ((parse_dof (pre1 ++ post) = ParseOutcome.emptyDataset emptyDatasetMsg) ↔
      post.filterMap parseLine = []) := by
  have d1 : (pre1 ++ post).drop 4 = post := by
    rw [← h1]; exact List.drop_left pre1 post
  have d2 : (pre2 ++ post).drop 4 = post := by
    rw [← h2]; exact List.drop_left pre2 post
  rw [parse_dof_eq, parse_dof_eq, d1, d2]
  refine ⟨rfl, ?_⟩
  by_cases h : post.filterMap parseLine = []
  · simp [h]
  · simp [h]

/-- Witness for C9: four well-formed, pattern-matching record lines as the
file's first four lines are still discarded — the parse outcome equals that
of a junk prefix, and with nothing after them the zero-records failure
fires. -/
theorem C9_header_skip_witness :
    (parseLine sampleDofLine).isSome = true ∧
    (parse_dof [sampleDofLine, sampleDofLine, sampleDofLine, sampleDofLine] =
      parse_dof ["a", "b", "c", "d"] ∧
    ((parse_dof [sampleDofLine, sampleDofLine, sampleDofLine, sampleDofLine] =
      ParseOutcome.emptyDataset emptyDatasetMsg) ↔
      ([] : List String).filterMap parseLine = [])) :=
  ⟨by decide,
    by
      have h := C9_header_skip [sampleDofLine, sampleDofLine, sampleDofLine, sampleDofLine]
        ["a", "b", "c", "d"] [] (by decide) (by decide)
      simpa using h⟩

/-- C8: DMS conversion is `deg + min/60 + sec/3600`, negated exactly when
the hemisphere is "S" or "W"; on the two cited inputs the value is within
1/10000 of 45.5677 and -122.4143 respectively. -/
theorem C8_dms_to_decimal :
    (∀ (deg minute sec : ℚ) (hem : String),
      dms_to_decimal deg minute sec hem =
        if hem = "S" ∨ hem = "W" then -(deg + minute / 60 + sec / 3600)
        else deg + minute / 60 + sec / 3600) ∧
    |dms_to_decimal 45 34 (19/5) "N" - 45.5677| < 1/10000 ∧
    |dms_to_decimal 122 24 (2579/50) "W" - (-122.4143)| < 1/10000 := by
  refine ⟨fun deg minute sec hem => rfl, ?_, ?_⟩
  · rw [show dms_to_decimal 45 34 (19/5) "N" = 45 + 34 / 60 + (19/5) / 3600 from rfl,
      abs_lt]
    constructor <;> norm_num
  · rw [show dms_to_decimal 122 24 (2579/50) "W" = -(122 + 24 / 60 + (2579/50) / 3600) from rfl,
      abs_lt]
    constructor <;> norm_num

theorem segment_conflicting_obstacles_eq_filter {γ : Type} (its : γ → Segment → Bool)
    (lat1 lon1 lat2 lon2 : ℚ) (obstacles : List (ObstacleFeature γ)) :
    segment_conflicting_obstacles its lat1 lon1 lat2 lon2 obstacles =
      (obstacles.filter (fun ob => its ob.geom ((lon1, lat1), (lon2, lat2)))).map
        (fun ob => ob.oas) := by
  unfold segment_conflicting_obstacles
  cases obstacles with
  | nil => rfl
  | cons o os =>
    rw [if_neg (by simp)]
    by_cases hall :
        ((o :: os).map (fun ob => its ob.geom ((lon1, lat1), (lon2, lat2)))).all
          (fun b => b = false) = true
    · rw [if_pos hall]
      have hfil : (o :: os).filter (fun ob => its ob.geom ((lon1, lat1), (lon2, lat2))) = [] := by
        rw [List.filter_eq_nil_iff]
        intro a ha
        have := List.all_eq_true.mp hall _ (List.mem_map_of_mem _ ha)
        simp only [decide_eq_true_eq] at this
        simp [this]
      rw [hfil]
      rfl
    · rw [if_neg hall]

theorem mem_segment_conflicting_obstacles {γ : Type} (its : γ → Segment → Bool)
    (lat1 lon1 lat2 lon2 : ℚ) (obstacles : List (ObstacleFeature γ)) (x : String) :
    x ∈ segment_conflicting_obstacles its lat1 lon1 lat2 lon2 obstacles ↔
      ∃ ob ∈ obstacles, ob.oas = x ∧ its ob.geom ((lon1, lat1), (lon2, lat2)) = true := by
  rw [segment_conflicting_obstacles_eq_filter]
  simp only [List.mem_map, List.mem_filter]
  constructor
  · rintro ⟨ob, ⟨hmem, hits⟩, rfl⟩
    exact ⟨ob, hmem, rfl, hits⟩
  · rintro ⟨ob, hmem, rfl, hits⟩
    exact ⟨ob, ⟨hmem, hits⟩, rfl⟩

theorem segment_conflicting_obstacles_ne_nil {γ : Type} (its : γ → Segment → Bool)
    (lat1 lon1 lat2 lon2 : ℚ) (obstacles : List (ObstacleFeature γ)) :
    segment_conflicting_obstacles its lat1 lon1 lat2 lon2 obstacles ≠ [] ↔
      ∃ ob ∈ obstacles, its ob.geom ((lon1, lat1), (lon2, lat2)) = true := by
  rw [segment_conflicting_obstacles_eq_filter]
  simp only [ne_eq, List.map_eq_nil_iff, List.filter_eq_nil_iff, not_forall]
  constructor
  · rintro ⟨ob, hmem, hits⟩
    refine ⟨ob, hmem, ?_⟩
    simpa using hits
  · rintro ⟨ob, hmem, hits⟩
    refine ⟨ob, hmem, ?_⟩
    simp [hits]

theorem intentLoop_getD (mk : Nat → FlightIntent) :
    ∀ (n s j : Nat), j < n → (intentLoop mk s n).getD j default = mk (s + j)
  | 0, _, j, h => absurd h (Nat.not_lt_zero j)
  | _ + 1, s, 0, _ => by simp [intentLoop]
  | n + 1, s, j + 1, h => by
    simp only [intentLoop, List.getD_cons_succ]
    rw [intentLoop_getD mk n (s + 1) j (Nat.lt_of_succ_lt_succ h)]
    congr 1
    omega

theorem mem_intentLoop (mk : Nat → FlightIntent) :
    ∀ (n s : Nat) (f : FlightIntent),
      f ∈ intentLoop mk s n ↔ ∃ j, j < n ∧ f = mk (s + j)
  | 0, s, f => by simp [intentLoop]
  | n + 1, s, f => by
    simp only [intentLoop, List.mem_cons, mem_intentLoop mk n (s + 1) f]
    constructor
    · rintro (rfl | ⟨j, hj, rfl⟩)
      · exact ⟨0, Nat.succ_pos n, by simp⟩
      · exact ⟨j + 1, by omega, by congr 1; omega⟩
    · rintro ⟨j, hj, rfl⟩
      cases j with
      | zero => left; simp
      | succ j => right; exact ⟨j, by omega, by congr 1; omega⟩

/-- With an empty obstacle list every intent comes out planned, with empty
conflict lists: shared by the empty-set and missing-file claims. -/
theorem mkIntent_nil_obstacles {γ : Type} (its : γ → Segment → Bool) (pois : PoiSets)
    (mSel cSel hSel depOff : Nat → Nat) (base_time alt : Nat) (speed : ℚ) (strat : String)
    (i : Nat) :
    (mkIntent its [] pois mSel cSel hSel depOff base_time alt speed strat i).status =
        "planned" ∧
      (mkIntent its [] pois mSel cSel hSel depOff base_time alt speed strat
        i).obstacle_conflict_legs = [] ∧
      (mkIntent its [] pois mSel cSel hSel depOff base_time alt speed strat
        i).obstacle_conflict_oas = [] :=
  ⟨rfl, rfl, rfl⟩

/-- The conclusion of claim C1 for the `i`-th generated flight. -/
def FlightClassifiedProp {γ : Type} (its : γ → Segment → Bool)
    (obstacles : List (ObstacleFeature γ)) (pois : PoiSets)
    (mSel cSel hSel depOff : Nat → Nat) (base_time count i : Nat) : Prop :=
  let f := (generate_operational_intents its (some obstacles) pois count
    mSel cSel hSel depOff base_time).getD i default
  let merchant := pois.merchants.getD (mSel (i + 1)) default
  let customer := pois.customers.getD (cSel (i + 1)) default
  let hub := pois.hubs.getD (hSel (i + 1)) default
  let seg1 : Segment :=
    ((hub.centroid_lon, hub.centroid_lat), (merchant.centroid_lon, merchant.centroid_lat))
  let seg2 : Segment :=
    ((merchant.centroid_lon, merchant.centroid_lat), (customer.centroid_lon, customer.centroid_lat))
  let seg3 : Segment :=
    ((customer.centroid_lon, customer.centroid_lat), (hub.centroid_lon, hub.centroid_lat))
  let conf1 := ∃ ob ∈ obstacles, its ob.geom seg1 = true
  let conf2 := ∃ ob ∈ obstacles, its ob.geom seg2 = true
  let conf3 := ∃ ob ∈ obstacles, its ob.geom seg3 = true
  ((f.status = "conflict_obstacle") ↔ (conf1 ∨ conf2 ∨ conf3)) ∧
  ((f.status = "planned") ↔ ¬ (conf1 ∨ conf2 ∨ conf3)) ∧
  (("hub_to_merchant" ∈ f.obstacle_conflict_legs) ↔ conf1) ∧
  (("merchant_to_customer" ∈ f.obstacle_conflict_legs) ↔ conf2) ∧
  (("customer_to_hub" ∈ f.obstacle_conflict_legs) ↔ conf3) ∧
  (∀ s ∈ f.obstacle_conflict_legs,
    s = "hub_to_merchant" ∨ s = "merchant_to_customer" ∨ s = "customer_to_hub") ∧
  f.obstacle_conflict_legs.Nodup ∧
  (∀ x, (x ∈ f.obstacle_conflict_oas) ↔
    ∃ ob ∈ obstacles, ob.oas = x ∧
      (its ob.geom seg1 = true ∨ its ob.geom seg2 = true ∨ its ob.geom seg3 = true)) ∧
  List.Sorted strLe f.obstacle_conflict_oas ∧
  f.obstacle_conflict_oas.Nodup

set_option maxHeartbeats 2000000 in
/-- C1: every generated flight's status is `conflict_obstacle` exactly when
one of its three legs intersects some obstacle buffer (else `planned`), its
conflicting-leg list contains exactly the conflicting legs' names, and its
obstacle identifier list is the deduplicated, ascending-sorted union of the
identifiers of the buffers intersected by any leg. -/
theorem C1_flight_conflict_classification {γ : Type} (its : γ → Segment → Bool)
    (obstacles : List (ObstacleFeature γ)) (pois : PoiSets)
    (mSel cSel hSel depOff : Nat → Nat) (base_time count i : Nat) (hi : i < count) :
    FlightClassifiedProp its obstacles pois mSel cSel hSel depOff base_time count i := by
  unfold FlightClassifiedProp
  intro f merchant customer hub seg1 seg2 seg3 conf1 conf2 conf3
  have hf : f = mkIntent its obstacles pois mSel cSel hSel depOff base_time
      250 25 "straight_line" (i + 1) := by
    show (intentLoop _ 1 count).getD i default = _
    rw [intentLoop_getD _ count 1 i hi]
    congr 1
    omega
  set ids1 := segment_conflicting_obstacles its hub.centroid_lat hub.centroid_lon
    merchant.centroid_lat merchant.centroid_lon obstacles with hids1
  set ids2 := segment_conflicting_obstacles its merchant.centroid_lat merchant.centroid_lon
    customer.centroid_lat customer.centroid_lon obstacles with hids2
  set ids3 := segment_conflicting_obstacles its customer.centroid_lat customer.centroid_lon
    hub.centroid_lat hub.centroid_lon obstacles with hids3
  have hne1 : ids1 ≠ [] ↔ conf1 :=
    segment_conflicting_obstacles_ne_nil its _ _ _ _ obstacles
  have hne2 : ids2 ≠ [] ↔ conf2 :=
    segment_conflicting_obstacles_ne_nil its _ _ _ _ obstacles
  have hne3 : ids3 ≠ [] ↔ conf3 :=
    segment_conflicting_obstacles_ne_nil its _ _ _ _ obstacles
  have hm1 : ∀ x, x ∈ ids1 ↔ ∃ ob ∈ obstacles, ob.oas = x ∧ its ob.geom seg1 = true :=
    fun x => mem_segment_conflicting_obstacles its _ _ _ _ obstacles x
  have hm2 : ∀ x, x ∈ ids2 ↔ ∃ ob ∈ obstacles, ob.oas = x ∧ its ob.geom seg2 = true :=
    fun x => mem_segment_conflicting_obstacles its _ _ _ _ obstacles x
  have hm3 : ∀ x, x ∈ ids3 ↔ ∃ ob ∈ obstacles, ob.oas = x ∧ its ob.geom seg3 = true :=
    fun x => mem_segment_conflicting_obstacles its _ _ _ _ obstacles x
  have hlegs : f.obstacle_conflict_legs =
      (if ids1.isEmpty then [] else ["hub_to_merchant"]) ++
      (if ids2.isEmpty then [] else ["merchant_to_customer"]) ++
      (if ids3.isEmpty then [] else ["customer_to_hub"]) := by
    rw [hf]; rfl
  have hoas : f.obstacle_conflict_oas = pySorted ((ids1 ++ ids2 ++ ids3).dedup) := by
    rw [hf]; rfl
  have hstatus : f.status =
      (if ((if ids1.isEmpty then ([] : List String) else ["hub_to_merchant"]) ++
        (if ids2.isEmpty then [] else ["merchant_to_customer"]) ++
        (if ids3.isEmpty then [] else ["customer_to_hub"])).isEmpty then "planned"
       else "conflict_obstacle") := by
    rw [hf]
    show (if (!((if ids1.isEmpty then ([] : List String) else ["hub_to_merchant"]) ++
        (if ids2.isEmpty then [] else ["merchant_to_customer"]) ++
        (if ids3.isEmpty then [] else ["customer_to_hub"])).isEmpty) = true
      then "conflict_obstacle" else "planned") = _
    rcases Bool.eq_false_or_eq_true (((if ids1.isEmpty then ([] : List String)
        else ["hub_to_merchant"]) ++ (if ids2.isEmpty then [] else ["merchant_to_customer"]) ++
        (if ids3.isEmpty then [] else ["customer_to_hub"])).isEmpty) with h | h
    · rw [h]; rfl
    · rw [h]; rfl
  have t1 : conf1 ↔ ids1.isEmpty = false := by
    rw [← hne1, List.isEmpty_eq_false]
  have t2 : conf2 ↔ ids2.isEmpty = false := by
    rw [← hne2, List.isEmpty_eq_false]
  have t3 : conf3 ↔ ids3.isEmpty = false := by
    rw [← hne3, List.isEmpty_eq_false]
  have hoas_mem : ∀ x, (x ∈ f.obstacle_conflict_oas) ↔
      ∃ ob ∈ obstacles, ob.oas = x ∧
        (its ob.geom seg1 = true ∨ its ob.geom seg2 = true ∨ its ob.geom seg3 = true) := by
    intro x
    rw [hoas, mem_pySorted, List.mem_dedup, List.mem_append, List.mem_append,
      hm1 x, hm2 x, hm3 x]
    constructor
    · rintro ((⟨ob, hmem, rfl, h⟩ | ⟨ob, hmem, rfl, h⟩) | ⟨ob, hmem, rfl, h⟩)
      · exact ⟨ob, hmem, rfl, Or.inl h⟩
      · exact ⟨ob, hmem, rfl, Or.inr (Or.inl h)⟩
      · exact ⟨ob, hmem, rfl, Or.inr (Or.inr h)⟩
    · rintro ⟨ob, hmem, rfl, (h | h | h)⟩
      · exact Or.inl (Or.inl ⟨ob, hmem, rfl, h⟩)
      · exact Or.inl (Or.inr ⟨ob, hmem, rfl, h⟩)
      · exact Or.inr ⟨ob, hmem, rfl, h⟩
  refine ⟨?_, ?_, ?_, ?_, ?_, ?_, ?_, hoas_mem, ?_, ?_⟩
  · rw [hstatus, iff_comm]
    simp only [t1, t2, t3]
    rcases Bool.eq_false_or_eq_true ids1.isEmpty with e1 | e1 <;>
      rcases Bool.eq_false_or_eq_true ids2.isEmpty with e2 | e2 <;>
      rcases Bool.eq_false_or_eq_true ids3.isEmpty with e3 | e3 <;>
      simp [e1, e2, e3]
  · rw [hstatus, iff_comm]
    simp only [t1, t2, t3]
    rcases Bool.eq_false_or_eq_true ids1.isEmpty with e1 | e1 <;>
      rcases Bool.eq_false_or_eq_true ids2.isEmpty with e2 | e2 <;>
      rcases Bool.eq_false_or_eq_true ids3.isEmpty with e3 | e3 <;>
      simp [e1, e2, e3]
  · rw [hlegs, iff_comm]
    simp only [t1]
    rcases Bool.eq_false_or_eq_true ids1.isEmpty with e1 | e1 <;>
      rcases Bool.eq_false_or_eq_true ids2.isEmpty with e2 | e2 <;>
      rcases Bool.eq_false_or_eq_true ids3.isEmpty with e3 | e3 <;>
      simp [e1, e2, e3]
  · rw [hlegs, iff_comm]
    simp only [t2]
    rcases Bool.eq_false_or_eq_true ids1.isEmpty with e1 | e1 <;>
      rcases Bool.eq_false_or_eq_true ids2.isEmpty with e2 | e2 <;>
      rcases Bool.eq_false_or_eq_true ids3.isEmpty with e3 | e3 <;>
      simp [e1, e2, e3]
  · rw [hlegs, iff_comm]
    simp only [t3]
    rcases Bool.eq_false_or_eq_true ids1.isEmpty with e1 | e1 <;>
      rcases Bool.eq_false_or_eq_true ids2.isEmpty with e2 | e2 <;>
      rcases Bool.eq_false_or_eq_true ids3.isEmpty with e3 | e3 <;>
      simp [e1, e2, e3]
  · rw [hlegs]
    intro s hs
    rcases Bool.eq_false_or_eq_true ids1.isEmpty with e1 | e1 <;>
      rcases Bool.eq_false_or_eq_true ids2.isEmpty with e2 | e2 <;>
      rcases Bool.eq_false_or_eq_true ids3.isEmpty with e3 | e3 <;>
      simp [e1, e2, e3] at hs <;> tauto
  · rw [hlegs]
    rcases Bool.eq_false_or_eq_true ids1.isEmpty with e1 | e1 <;>
      rcases Bool.eq_false_or_eq_true ids2.isEmpty with e2 | e2 <;>
      rcases Bool.eq_false_or_eq_true ids3.isEmpty with e3 | e3 <;>
      simp [e1, e2, e3]
  · rw [hoas]
    exact pySorted_sorted _
  · rw [hoas]
    exact pySorted_nodup _ (List.nodup_dedup _)

/-- Witness for C1 at a concrete instantiation: one hub/merchant/customer,
an always-intersecting oracle and two obstacle buffers. -/
theorem C1_flight_conflict_classification_witness :
    0 < 1 ∧ FlightClassifiedProp (fun (_ : Unit) (_ : Segment) => true)
      [⟨"B2", ()⟩, ⟨"A1", ()⟩]
      ⟨[⟨"poi_0001", "merchant", "merchant_1", "2", 1, 2⟩],
        [⟨"poi_0002", "customer", "customer_1", "3", 3, 4⟩],
        [⟨"poi_0000", "hub", "hub_1", "1", 5, 6⟩]⟩
      (fun _ => 0) (fun _ => 0) (fun _ => 0) (fun _ => 0) 0 1 0 :=
  ⟨Nat.zero_lt_one,
    C1_flight_conflict_classification (fun (_ : Unit) (_ : Segment) => true)
      [⟨"B2", ()⟩, ⟨"A1", ()⟩]
      ⟨[⟨"poi_0001", "merchant", "merchant_1", "2", 1, 2⟩],
        [⟨"poi_0002", "customer", "customer_1", "3", 3, 4⟩],
        [⟨"poi_0000", "hub", "hub_1", "1", 5, 6⟩]⟩
      (fun _ => 0) (fun _ => 0) (fun _ => 0) (fun _ => 0) 0 1 0 (by decide)⟩

/-- C2: with an explicitly empty obstacle buffer set, every flight of every
batch is planned with empty conflict lists, and the per-leg test on the
empty set returns no conflict for every intersection oracle (its result
never consults the geometry). -/
theorem C2_empty_obstacle_set {γ : Type} (its : γ → Segment → Bool) (pois : PoiSets)
    (count : Nat) (mSel cSel hSel depOff : Nat → Nat) (base_time : Nat) :
    (∀ f ∈ generate_operational_intents its (some []) pois count mSel cSel hSel depOff
        base_time,
      f.status = "planned" ∧ f.obstacle_conflict_legs = [] ∧ f.obstacle_conflict_oas = []) ∧
    (∀ (oracle : γ → Segment → Bool) (lat1 lon1 lat2 lon2 : ℚ),
      segment_conflicting_obstacles oracle lat1 lon1 lat2 lon2 [] = []) := by
  constructor
  · intro f hf
    have hf' : f ∈ intentLoop (mkIntent its [] pois mSel cSel hSel depOff base_time
        250 25 "straight_line") 1 count := hf
    rcases (mem_intentLoop _ count 1 f).mp hf' with ⟨j, _, rfl⟩
    exact mkIntent_nil_obstacles its pois mSel cSel hSel depOff base_time 250 25
      "straight_line" (1 + j)
  · intro oracle lat1 lon1 lat2 lon2
    rfl

/-- Witness for C2 at a concrete instantiation. -/
theorem C2_empty_obstacle_set_witness :
    ((generate_operational_intents (fun (_ : Unit) (_ : Segment) => true) (some []) default 1
        (fun _ => 0) (fun _ => 0) (fun _ => 0) (fun _ => 0) 0).getD 0 default).status =
        "planned" ∧
      ((generate_operational_intents (fun (_ : Unit) (_ : Segment) => true) (some []) default 1
        (fun _ => 0) (fun _ => 0) (fun _ => 0) (fun _ => 0) 0).getD 0
          default).obstacle_conflict_legs = [] ∧
      ((generate_operational_intents (fun (_ : Unit) (_ : Segment) => true) (some []) default 1
        (fun _ => 0) (fun _ => 0) (fun _ => 0) (fun _ => 0) 0).getD 0
          default).obstacle_conflict_oas = [] :=
  (C2_empty_obstacle_set (fun (_ : Unit) (_ : Segment) => true) default 1
    (fun _ => 0) (fun _ => 0) (fun _ => 0) (fun _ => 0) 0).1 _ (by decide)

/-- C10: a missing obstacle file does not make flight generation fail —
the loader substitutes an empty buffer set (the caller passes no flag
permitting this), and every generated flight is planned with empty
conflict lists. -/
theorem C10_missing_obstacle_file_fallback {γ : Type} (its : γ → Segment → Bool)
    (pois : PoiSets) (count : Nat) (mSel cSel hSel depOff : Nat → Nat) (base_time : Nat) :
    load_obstacle_buffers (none : Option (List (ObstacleFeature γ))) = [] ∧
    (∀ f ∈ generate_operational_intents its none pois count mSel cSel hSel depOff base_time,
      f.status = "planned" ∧ f.obstacle_conflict_legs = [] ∧
        f.obstacle_conflict_oas = []) := by
  refine ⟨rfl, ?_⟩
  intro f hf
  have hf' : f ∈ intentLoop (mkIntent its [] pois mSel cSel hSel depOff base_time
      250 25 "straight_line") 1 count := hf
  rcases (mem_intentLoop _ count 1 f).mp hf' with ⟨j, _, rfl⟩
  exact mkIntent_nil_obstacles its pois mSel cSel hSel depOff base_time 250 25
    "straight_line" (1 + j)

/-- Witness for C10 at a concrete instantiation. -/
theorem C10_missing_obstacle_file_fallback_witness :
    load_obstacle_buffers (none : Option (List (ObstacleFeature Unit))) = [] ∧
      ((generate_operational_intents (fun (_ : Unit) (_ : Segment) => true) none default 1
        (fun _ => 0) (fun _ => 0) (fun _ => 0) (fun _ => 0) 0).getD 0 default).status =
        "planned" :=
  ⟨(C10_missing_obstacle_file_fallback (fun (_ : Unit) (_ : Segment) => true) default 1
      (fun _ => 0) (fun _ => 0) (fun _ => 0) (fun _ => 0) 0).1,
    ((C10_missing_obstacle_file_fallback (fun (_ : Unit) (_ : Segment) => true) default 1
      (fun _ => 0) (fun _ => 0) (fun _ => 0) (fun _ => 0) 0).2 _ (by decide)).1⟩

theorem renumberFrom_length {α : Type} :
    ∀ (s : Nat) (l : List (GridCell α)), (renumberFrom s l).length = l.length
  | _, [] => rfl
  | s, _ :: cs => by simp [renumberFrom, renumberFrom_length (s + 1) cs]

theorem renumberFrom_map_cell_id {α : Type} :
    ∀ (s : Nat) (l : List (GridCell α)),
      (renumberFrom s l).map GridCell.cell_id = List.range' s l.length
  | _, [] => rfl
  | s, c :: cs => by
    simp [renumberFrom, renumberFrom_map_cell_id (s + 1) cs, List.range'_succ]

theorem renumberFrom_eq_of_map_geom {α : Type} :
    ∀ (s : Nat) (l₁ l₂ : List (GridCell α)),
      l₁.map GridCell.geom = l₂.map GridCell.geom → renumberFrom s l₁ = renumberFrom s l₂
  | _, [], [] => fun _ => rfl
  | _, [], _ :: _ => by intro h; simp at h
  | _, _ :: _, [] => by intro h; simp at h
  | s, c :: cs, d :: ds => by
    intro h
    simp only [List.map_cons, List.cons.injEq] at h
    simp [renumberFrom, h.1, renumberFrom_eq_of_map_geom (s + 1) cs ds h.2]

theorem clipped_map_geom {α β : Type} (inter : α → β → Option α)
    (grid : List (GridCell α)) (boundary : List β) :
    ((grid.flatMap (fun c => boundary.filterMap
        (fun b => (inter c.geom b).map (fun g => { c with geom := g })))).map
      GridCell.geom) =
      grid.flatMap (fun c => boundary.filterMap (fun b => inter c.geom b)) := by
  rw [List.map_flatMap]
  congr 1
  funext c
  rw [List.map_filterMap]
  congr 1
  funext b
  cases inter c.geom b <;> rfl

/-- C3: after clipping against the boundary, the surviving cells carry the
dense identifier sequence 1..N assigned in output order, and the output does
not depend on the pre-clip `cell_id` values at all (any relabelling of the
input identifiers yields the same clipped output). -/
theorem C3_cell_renumbering {α β : Type} (inter : α → β → Option α)
    (grid : List (GridCell α)) (boundary : List β) :
    ((clip_to_boundary inter grid boundary).map GridCell.cell_id =
      List.range' 1 (clip_to_boundary inter grid boundary).length) ∧
    (∀ relabel : Nat → Nat,
      clip_to_boundary inter (grid.map (fun c => { c with cell_id := relabel c.cell_id }))
        boundary = clip_to_boundary inter grid boundary) := by
  constructor
  · unfold clip_to_boundary
    rw [renumberFrom_map_cell_id, renumberFrom_length]
  · intro relabel
    unfold clip_to_boundary
    apply renumberFrom_eq_of_map_geom
    rw [clipped_map_geom, clipped_map_geom, List.flatMap_map]

/-- C7: `build_grid_from_bounds` rejects with the invalid-bounds error
exactly when `south >= north`, `west >= east` or the cell size is
non-positive, and on rejection the projection/tiling machinery is never
consulted (the outcome is the same for every projection oracle, and no
cells are produced). -/
theorem C7_bounds_validation
    (projBounds : ℤ → ℚ × ℚ × ℚ × ℚ → ℚ × ℚ × ℚ × ℚ) (north south west east cell_m : ℚ) :
    ((∃ msg, build_grid_from_bounds projBounds north south west east cell_m =
        GridOutcome.invalidBounds msg) ↔
      (north ≤ south ∨ east ≤ west ∨ cell_m ≤ 0)) ∧
    ((north ≤ south ∨ east ≤ west ∨ cell_m ≤ 0) →
      ∀ projBounds', build_grid_from_bounds projBounds north south west east cell_m =
        build_grid_from_bounds projBounds' north south west east cell_m) := by
  unfold build_grid_from_bounds
  by_cases h1 : south < north ∧ west < east
  · by_cases h2 : cell_m ≤ 0
    · rw [if_neg (not_not_intro h1), if_pos h2]
      refine ⟨⟨fun _ => Or.inr (Or.inr h2), fun _ => ⟨_, rfl⟩⟩, fun _ projBounds' => ?_⟩
      rw [if_neg (not_not_intro h1), if_pos h2]
    · rw [if_neg (not_not_intro h1), if_neg h2]
      constructor
      · refine iff_of_false ?_ ?_
        · rintro ⟨msg, hmsg⟩
          exact GridOutcome.noConfusion hmsg
        · rintro (h | h | h)
          · exact absurd h1.1 (not_lt.mpr h)
          · exact absurd h1.2 (not_lt.mpr h)
          · exact h2 h
      · rintro (h | h | h)
        · exact absurd h1.1 (not_lt.mpr h)
        · exact absurd h1.2 (not_lt.mpr h)
        · exact absurd h h2
  · rw [if_pos h1]
    refine ⟨⟨fun _ => ?_, fun _ => ⟨_, rfl⟩⟩, fun _ projBounds' => ?_⟩
    · rcases not_and_or.mp h1 with h | h
      · exact Or.inl (not_lt.mp h)
      · exact Or.inr (Or.inl (not_lt.mp h))
    · rw [if_pos h1]

/-- Witness for C7: degenerate bounds (south = north) are rejected with the
invalid-bounds message for a concrete projection oracle, and the rejection
is oracle-independent. -/
theorem C7_bounds_validation_witness :
    (build_grid_from_bounds (fun _ b => b) 2 2 0 1 10 =
      GridOutcome.invalidBounds "Invalid bounds: ensure south < north and west < east.") ∧
    ((∃ msg, build_grid_from_bounds (fun _ b => b) 2 2 0 1 10 =
        GridOutcome.invalidBounds msg) ↔ ((2:ℚ) ≤ 2 ∨ (1:ℚ) ≤ 0 ∨ (10:ℚ) ≤ 0)) ∧
    build_grid_from_bounds (fun _ b => b) 2 2 0 1 10 =
      build_grid_from_bounds (fun _ _ => (0, 0, 0, 0)) 2 2 0 1 10 :=
  ⟨by decide,
    (C7_bounds_validation (fun _ b => b) 2 2 0 1 10).1,
    (C7_bounds_validation (fun _ b => b) 2 2 0 1 10).2 (Or.inl (by norm_num))
      (fun _ _ => (0, 0, 0, 0))⟩

/-- C5: the filter-and-buffer stage keeps exactly the records at or above
the 218 ft AGL threshold, preserves their `oas` attribution in order, and
gives every kept record the 30 m circular buffer built in the one shared
planar CRS EPSG:3857 and reprojected back to EPSG:4326. -/
theorem C5_obstacle_buffering (records : List DofRecord) :
    ((buffer_obstacles records).map BufferedObstacle.oas =
      (records.filter (fun r => MIN_AGL_FT ≤ r.agl_ft)).map DofRecord.oas) ∧
    ((buffer_obstacles records).length =
      (records.filter (fun r => MIN_AGL_FT ≤ r.agl_ft)).length) ∧
    (∀ b ∈ buffer_obstacles records, ∃ r ∈ records, MIN_AGL_FT ≤ r.agl_ft ∧
      b.oas = r.oas ∧ b.agl_ft = r.agl_ft ∧
      b.geom = Geom.reproject 4326 (Geom.buffer BUFFER_M
        (Geom.reproject 3857 (Geom.point r.lon r.lat)))) ∧
    (∀ r ∈ records, MIN_AGL_FT ≤ r.agl_ft →
      ({ oas := r.oas, agl_ft := r.agl_ft,
         geom := Geom.reproject 4326 (Geom.buffer BUFFER_M
           (Geom.reproject 3857 (Geom.point r.lon r.lat))) } : BufferedObstacle) ∈
        buffer_obstacles records) := by
  refine ⟨?_, ?_, ?_, ?_⟩
  · unfold buffer_obstacles
    rw [List.map_map]
    rfl
  · simp [buffer_obstacles]
  · intro b hb
    simp only [buffer_obstacles, List.mem_map, List.mem_filter,
      decide_eq_true_eq] at hb
    rcases hb with ⟨r, ⟨hr, hq⟩, rfl⟩
    exact ⟨r, hr, hq, rfl, rfl, rfl⟩
  · intro r hr hq
    simp only [buffer_obstacles, List.mem_map, List.mem_filter, decide_eq_true_eq]
    exact ⟨r, ⟨hr, hq⟩, rfl⟩

/-- Witness for C5: of two concrete records, only the 300 ft one (above the
218 ft threshold) is buffered, with its identifier and the symbolic
3857-buffer-4326 geometry. -/
theorem C5_obstacle_buffering_witness :
    (({ oas := "A-1", agl_ft := 300,
        geom := Geom.reproject 4326 (Geom.buffer BUFFER_M
          (Geom.reproject 3857 (Geom.point 2 1))) } : BufferedObstacle) ∈
      buffer_obstacles [⟨"A-1", "WA", "SEATTLE", "TWR", 300, 400, 1, 2⟩,
        ⟨"B-2", "WA", "SEATTLE", "POLE", 100, 150, 3, 4⟩]) ∧
    (∃ r ∈ [(⟨"A-1", "WA", "SEATTLE", "TWR", 300, 400, 1, 2⟩ : DofRecord),
        ⟨"B-2", "WA", "SEATTLE", "POLE", 100, 150, 3, 4⟩], MIN_AGL_FT ≤ r.agl_ft ∧
      ({ oas := "A-1", agl_ft := 300,
         geom := Geom.reproject 4326 (Geom.buffer BUFFER_M
           (Geom.reproject 3857 (Geom.point 2 1))) } : BufferedObstacle).oas = r.oas ∧
      ({ oas := "A-1", agl_ft := 300,
         geom := Geom.reproject 4326 (Geom.buffer BUFFER_M
           (Geom.reproject 3857 (Geom.point 2 1))) } : BufferedObstacle).agl_ft = r.agl_ft ∧
      ({ oas := "A-1", agl_ft := 300,
         geom := Geom.reproject 4326 (Geom.buffer BUFFER_M
           (Geom.reproject 3857 (Geom.point 2 1))) } : BufferedObstacle).geom =
        Geom.reproject 4326 (Geom.buffer BUFFER_M
          (Geom.reproject 3857 (Geom.point r.lon r.lat)))) :=
  ⟨by decide,
    (C5_obstacle_buffering [⟨"A-1", "WA", "SEATTLE", "TWR", 300, 400, 1, 2⟩,
        ⟨"B-2", "WA", "SEATTLE", "POLE", 100, 150, 3, 4⟩]).2.2.1 _ (by decide)⟩

theorem pySampleAux_length :
    ∀ (k s : Nat) (avail : List Nat), (pySampleAux s k avail).length = min k avail.length
  | 0, _, _ => by simp [pySampleAux]
  | k + 1, s, avail => by
    unfold pySampleAux
    by_cases h : avail.isEmpty = true
    · rw [if_pos h]
      have hlen : avail.length = 0 := by
        rcases avail with _ | _
        · rfl
        · simp at h
      simp [hlen]
    · rw [if_neg h]
      have hlen : 0 < avail.length := by
        rcases avail with _ | _
        · simp at h
        · simp
      have hmod : s % avail.length < avail.length := Nat.mod_lt _ hlen
      simp only [List.length_cons,
        pySampleAux_length k (lcg s) (avail.eraseIdx (s % avail.length)),
        List.length_eraseIdx, if_pos hmod]
      omega

theorem pySample_length (seed n k : Nat) : (pySample seed n k).length = min k n := by
  unfold pySample
  rw [pySampleAux_length, List.length_range]

theorem ilocRows_length {γ : Type} [Inhabited γ] (gdf : List (GridRow γ))
    (idxs : List Nat) : (ilocRows gdf idxs).length = idxs.length :=
  List.length_map idxs _

theorem roleBlock_length {γ : Type} (role : String) (rows : List (GridRow γ)) :
    (roleBlock role rows).length = rows.length := by
  simp [roleBlock]

theorem assignPoiIds_length {γ : Type} :
    ∀ (s : Nat) (l : List (PoiRow γ)), (assignPoiIds s l).length = l.length
  | _, [] => rfl
  | s, _ :: rs => by simp [assignPoiIds, assignPoiIds_length (s + 1) rs]

theorem assignPoiIds_append {γ : Type} :
    ∀ (s : Nat) (l₁ l₂ : List (PoiRow γ)),
      assignPoiIds s (l₁ ++ l₂) = assignPoiIds s l₁ ++ assignPoiIds (s + l₁.length) l₂
  | _, [], _ => by simp [assignPoiIds]
  | s, r :: rs, l₂ => by
    simp only [List.cons_append, assignPoiIds, List.append_eq,
      assignPoiIds_append (s + 1) rs l₂, List.length_cons]
    rw [show s + (rs.length + 1) = s + 1 + rs.length by omega]

/-- The first `min n_hubs |grid|` output rows of `create_pois` are the hub
block, which depends only on the grid and the hub count. -/
theorem create_pois_take_hubs {γ : Type} [Inhabited γ] (gdf : List (GridRow γ))
    (nh nm nc : Nat) :
    (create_pois gdf nh nm nc).take (min nh gdf.length) =
      (assignPoiIds 0 (roleBlock "hub" (ilocRows gdf
        (pySample 42 gdf.length (min nh gdf.length))))).map
        (fun r => { r with centroid_lat := roundTo3 r.centroid_lat,
                           centroid_lon := roundTo3 r.centroid_lon }) := by
  simp only [create_pois]
  rw [assignPoiIds_append, assignPoiIds_append, List.map_append, List.map_append,
    List.append_assoc]
  apply List.take_left'
  rw [List.length_map, assignPoiIds_length, roleBlock_length, ilocRows_length,
    pySample_length]
  omega

/-- C6: POI placement is deterministic — identical grid input and identical
role counts give identical POI rows (identifiers, names, cell ids and all) —
and each role's sampling is driven by its own fixed seed: the hub block does
not change when the merchant or customer counts change. -/
theorem C6_poi_determinism {γ : Type} [Inhabited γ] (gdf : List (GridRow γ))
    (nh nm nc nm' nc' : Nat) :
    create_pois gdf nh nm nc = create_pois gdf nh nm nc ∧
    (create_pois gdf nh nm nc).take (min nh gdf.length) =
      (create_pois gdf nh nm' nc').take (min nh gdf.length) := by
  refine ⟨rfl, ?_⟩
  rw [create_pois_take_hubs, create_pois_take_hubs]

end UTMAirspace
